import Mathlib

/-!
Verification of the OAuth 2.0 authorization-code broker in
`source/servers/sample-auth-python` (files `oauth_cognito.py`,
`token_storage/local_token_store.py`, `token_storage/dynamo_db_token_store.py`,
`token_storage/token_store_factory.py`).

The Python code is shallowly embedded: dictionaries become structures or
association lists, `None`/missing-key distinctions become `Option`, early
`return JSONResponse(...)` becomes an explicit result type, and library
calls that are external to the repository (SHA-256 hashing, JWT
signature verification, the DynamoDB wire protocol) become function
parameters of the embedded definitions.  All control flow, field names,
error strings, status codes, TTL constants and comparison semantics are
taken directly from the source.
-/

/-- Python truthiness test `not x` for an optional string parameter:
true when the parameter is absent (`None`) or the empty string. -/
def isBlank : Option String → Bool
  | none => true
  | some s => s == ""

/-- Character-list prefix test; `charsStart p s` is true when `p` is a
prefix of `s`.  Models Python `str.startswith`. -/
def charsStart : List Char → List Char → Bool
  | [], _ => true
  | _ :: _, [] => false
  | p :: ps, c :: cs => p == c && charsStart ps cs

/-- Python `s.startswith(pat)`. -/
def pyStartsWith (s pat : String) : Bool :=
  charsStart pat.data s.data

/-- Association-list lookup, modelling Python `dict.get`. -/
def assocFind {α : Type} : List (String × α) → String → Option α
  | [], _ => none
  | (k', v) :: t, k => if k' == k then some v else assocFind t k

/-- Association-list key removal, modelling Python `del d[k]`. -/
def assocRemove {α : Type} : List (String × α) → String → List (String × α)
  | [], _ => []
  | (k', v) :: t, k => if k' == k then assocRemove t k else (k', v) :: assocRemove t k

/-- Association-list insertion with overwrite, modelling Python
`d[k] = v`. -/
def assocInsert {α : Type} (l : List (String × α)) (k : String) (v : α) :
    List (String × α) :=
  (k, v) :: assocRemove l k

/-- A stored entry of the in-memory `LocalTokenStore`: the wrapper dict
`{'data': ..., 'created_at': ..., 'expiration': ...}` built by its
`store_*` methods. -/
structure Entry (α : Type) where
  data : α
  created_at : Int
  expiration : Int
deriving DecidableEq

/-- One keyed map of the in-memory store (`self.sessions`, `self.tokens`,
`self.refresh_tokens` are each a Python dict of such entries). -/
abbrev LocalStore (α : Type) : Type := List (String × Entry α)

/-- The shared read logic of `LocalTokenStore.get_session`,
`get_token_mapping` and `get_refresh_token`: look the key up and, when the
entry carries a truthy `expiration` that is strictly in the past, delete it
and answer not-found.  Returns the answer together with the
possibly-mutated map. -/
def lstoreGet {α : Type} (now : Int) (store : LocalStore α) (key : String) :
    Option α × LocalStore α :=
  match assocFind store key with
  | none => (none, store)
  | some e =>
    if e.expiration ≠ 0 ∧ e.expiration < now then (none, assocRemove store key)
    else (some e.data, store)

/-- `LocalTokenStore.store_session`: entry with a 24-hour expiration. -/
def LocalTokenStore.store_session {α : Type} (now : Int) (store : LocalStore α)
    (session_id : String) (session_data : α) : LocalStore α :=
  assocInsert store session_id ⟨session_data, now, now + 24 * 60 * 60⟩

/-- `LocalTokenStore.get_session` (lazy expiry check at read time). -/
def LocalTokenStore.get_session {α : Type} (now : Int) (store : LocalStore α)
    (session_id : String) : Option α × LocalStore α :=
  lstoreGet now store session_id

/-- `LocalTokenStore.delete_session`. -/
def LocalTokenStore.delete_session {α : Type} (store : LocalStore α)
    (session_id : String) : LocalStore α :=
  assocRemove store session_id

/-- `LocalTokenStore.store_token_mapping`: entry with a 10-minute
expiration. -/
def LocalTokenStore.store_token_mapping {α : Type} (now : Int) (store : LocalStore α)
    (auth_code : String) (token_data : α) : LocalStore α :=
  assocInsert store auth_code ⟨token_data, now, now + 10 * 60⟩

/-- `LocalTokenStore.get_token_mapping` (lazy expiry check at read time). -/
def LocalTokenStore.get_token_mapping {α : Type} (now : Int) (store : LocalStore α)
    (auth_code : String) : Option α × LocalStore α :=
  lstoreGet now store auth_code

/-- `LocalTokenStore.delete_token_mapping`. -/
def LocalTokenStore.delete_token_mapping {α : Type} (store : LocalStore α)
    (auth_code : String) : LocalStore α :=
  assocRemove store auth_code

/-- `LocalTokenStore.store_refresh_token`: entry with a 30-day
expiration. -/
def LocalTokenStore.store_refresh_token {α : Type} (now : Int) (store : LocalStore α)
    (refresh_token : String) (token_data : α) : LocalStore α :=
  assocInsert store refresh_token ⟨token_data, now, now + 30 * 24 * 60 * 60⟩

/-- `LocalTokenStore.get_refresh_token` (lazy expiry check at read time). -/
def LocalTokenStore.get_refresh_token {α : Type} (now : Int) (store : LocalStore α)
    (refresh_token : String) : Option α × LocalStore α :=
  lstoreGet now store refresh_token

/-- `LocalTokenStore._convert_floats` is a no-op. -/
def LocalTokenStore.convert_floats {α : Type} (obj : α) : α := obj

/-- `LocalTokenStore.convert_decimals` is a no-op. -/
def LocalTokenStore.convert_decimals {α : Type} (obj : α) : α := obj

/-! ### PKCE challenge computation

`handle_authorization_code_grant` computes
`base64.urlsafe_b64encode(hashlib.sha256(verifier.encode('ascii')).digest()).decode('ascii').rstrip('=')`.
The base64url encoding and the padding strip are implemented concretely
below; the SHA-256 digest itself is an external library call
(`hashlib`) and is passed in as a function on byte lists. -/

/-- The URL-safe base64 alphabet used by `base64.urlsafe_b64encode`. -/
def b64urlAlphabet : List Char :=
  "ABCDEFGHIJKLMNOPQRSTUVWXYZabcdefghijklmnopqrstuvwxyz0123456789-_".data

/-- The base64url character with the given 6-bit index. -/
def b64Char (n : Nat) : Char :=
  b64urlAlphabet.getD n 'A'

/-- Standard base64 encoding of a byte list (values `< 256`) over the
URL-safe alphabet, including `=` padding. -/
def b64urlChunks : List Nat → List Char
  | [] => []
  | [b1] =>
    [b64Char (b1 / 4), b64Char (b1 % 4 * 16), '=', '=']
  | [b1, b2] =>
    [b64Char (b1 / 4), b64Char (b1 % 4 * 16 + b2 / 16), b64Char (b2 % 16 * 4), '=']
  | b1 :: b2 :: b3 :: rest =>
    b64Char (b1 / 4) :: b64Char (b1 % 4 * 16 + b2 / 16) ::
      b64Char (b2 % 16 * 4 + b3 / 64) :: b64Char (b3 % 64) :: b64urlChunks rest

/-- Python `s.rstrip('=')` on a character list. -/
def rstripEq (s : List Char) : List Char :=
  (s.reverse.dropWhile (· == '=')).reverse

/-- `verifier.encode('ascii')`: the code points of an ASCII string as a
byte list. -/
def asciiBytes (s : String) : List Nat :=
  s.data.map Char.toNat

/-- The S256 PKCE challenge derived from a verifier:
`base64url(sha256(verifier))` with trailing `=` padding stripped, exactly
as computed at `oauth_cognito.py` lines 595-597. -/
def computeS256Challenge (sha256 : List Nat → List Nat) (verifier : String) : String :=
  String.mk (rstripEq (b64urlChunks (sha256 (asciiBytes verifier))))

/-! ### Data model -/

/-- The session dict built by `authorize` (oauth_cognito.py lines 260-268). -/
structure SessionData where
  client_id : String
  redirect_uri : String
  state : Option String
  code_challenge : Option String
  code_challenge_method : String
  scope : String
  created_at : Int
deriving DecidableEq

/-- The authorization-code mapping dict built by `callback`
(oauth_cognito.py lines 426-436).  Fields the token endpoint probes with
a Python `in` test are wrapped in an outer `Option` recording key
presence, with the inner `Option` recording a `None` value. -/
structure TokenMapping where
  cognito_access_token : String
  cognito_refresh_token : Option (Option String)
  cognito_id_token : Option (Option String)
  client_id : String
  scope : String
  code_challenge : Option (Option String)
  code_challenge_method : String
  created_at : Int
  expires_in : Option Int
deriving DecidableEq

/-- The refresh-token mapping dict built by
`handle_authorization_code_grant` (oauth_cognito.py lines 640-645). -/
structure RefreshTokenData where
  client_id : String
  cognito_refresh_token : Option String
  scope : String
  created_at : Int
deriving DecidableEq

/-- The claims dict of a broker-minted access token
(oauth_cognito.py lines 613-623). -/
structure AccessTokenClaims where
  iss : String
  sub : String
  aud : String
  exp : Int
  iat : Int
  jti : String
  scope : String
  cognito_token : Option String
  kid : String
deriving DecidableEq

/-- `session_data` as assembled by `authorize` from the query parameters,
after the source's defaults: `code_challenge_method` defaults to `"S256"`
and `scope` to `""` when the parameter is absent. -/
def authorize_session_data (client_id redirect_uri : String)
    (state code_challenge code_challenge_method scope : Option String)
    (now : Int) : SessionData :=
  { client_id := client_id
    redirect_uri := redirect_uri
    state := state
    code_challenge := code_challenge
    code_challenge_method := code_challenge_method.getD "S256"
    scope := scope.getD ""
    created_at := now }

/-- `token_data` as assembled by `callback` from the resolved session and
the upstream token response: every key is present, `code_challenge` is
copied from the session even when the session recorded none, and
`expires_in` defaults to 3600. -/
def callback_token_data (session : SessionData) (access_token : String)
    (refresh_token id_token : Option String) (expires_in : Option Int)
    (now : Int) : TokenMapping :=
  { cognito_access_token := access_token
    cognito_refresh_token := some refresh_token
    cognito_id_token := some id_token
    client_id := session.client_id
    scope := session.scope
    code_challenge := some session.code_challenge
    code_challenge_method := session.code_challenge_method
    created_at := now
    expires_in := some (expires_in.getD 3600) }

/-- The mutable state touched by the token endpoint: the code-mapping map
and the refresh-token map of the store. -/
structure TokenState where
  tokens : LocalStore TokenMapping
  refresh_tokens : LocalStore RefreshTokenData
deriving DecidableEq

/-- Outcome of a token-endpoint grant handler: either a JSON error
response with its HTTP status, or the token response of
oauth_cognito.py lines 652-661. -/
inductive GrantResult where
  | err (status : Nat) (error : String) (descr : String)
  | ok (claims : AccessTokenClaims) (token_type : String) (expires_in : Int)
      (scope : String) (refresh_token : Option String)
deriving DecidableEq

/-- Whether a grant outcome is the token-issuing success response. -/
def GrantResult.isOk : GrantResult → Bool
  | .err _ _ _ => false
  | .ok _ _ _ _ _ => true

/-- Step 4 of `handle_authorization_code_grant` (oauth_cognito.py lines
578-606), the PKCE check: it triggers on *presence* of the
`code_challenge` key in the mapping; a blank `code_verifier` is
`invalid_request`; when the recorded method is `S256` the derived
challenge must equal the stored value (`None` included) under Python
`!=`; any other recorded method skips verification.  `none` means the
check passed and the handler continues. -/
def grantPkce (sha256 : List Nat → List Nat) (m : TokenMapping)
    (code_verifier : Option String) : Option GrantResult :=
  match m.code_challenge with
  | none => none
  | some stored =>
    if isBlank code_verifier then
      some (.err 400 "invalid_request" "Missing code_verifier")
    else if m.code_challenge_method == "S256" then
      if stored ≠ some (computeS256Challenge sha256 (code_verifier.getD "")) then
        some (.err 400 "invalid_grant" "Invalid code_verifier")
      else none
    else none

/-- Step 5 onward of `handle_authorization_code_grant` (oauth_cognito.py
lines 608-662): build the access-token claims, mint and store a broker
refresh token when the mapping carries a `cognito_refresh_token` key,
delete the redeemed code mapping, and return the token response. -/
def grantIssue (now : Int) (base_url jti fresh_refresh : String)
    (c cid : String) (m : TokenMapping) (tokens1 : LocalStore TokenMapping)
    (st : TokenState) : GrantResult × TokenState :=
  let expires_in := m.expires_in.getD 3600
  let claims : AccessTokenClaims :=
    { iss := base_url
      sub := cid
      aud := "mcp-server"
      exp := now + expires_in
      iat := now
      jti := jti
      scope := m.scope
      cognito_token := some m.cognito_access_token
      kid := "mcp-1" }
  match m.cognito_refresh_token with
  | some crt =>
    let st2 : TokenState :=
      { tokens := tokens1
        refresh_tokens :=
          LocalTokenStore.store_refresh_token now st.refresh_tokens fresh_refresh
            { client_id := cid
              cognito_refresh_token := crt
              scope := m.scope
              created_at := now } }
    let final : TokenState :=
      { st2 with tokens := LocalTokenStore.delete_token_mapping st2.tokens c }
    (.ok claims "Bearer" expires_in m.scope (some fresh_refresh), final)
  | none =>
    let final : TokenState :=
      { st with tokens := LocalTokenStore.delete_token_mapping tokens1 c }
    (.ok claims "Bearer" expires_in m.scope none, final)

/-- `handle_authorization_code_grant` (oauth_cognito.py lines 542-662)
over the in-memory store.  `sha256` stands for `hashlib.sha256(...).digest()`;
`base_url`, `jti` and `fresh_refresh` stand for the environment base URL,
the fresh `uuid4` used as `jti`, and the fresh `uuid4` minted as the broker
refresh token. -/
def handle_authorization_code_grant (sha256 : List Nat → List Nat)
    (now : Int) (base_url jti fresh_refresh : String)
    (code client_id redirect_uri code_verifier : Option String)
    (st : TokenState) : GrantResult × TokenState :=
  if isBlank code || isBlank client_id || isBlank redirect_uri then
    (.err 400 "invalid_request" "Missing required parameters", st)
  else
    let c := code.getD ""
    let cid := client_id.getD ""
    match LocalTokenStore.get_token_mapping now st.tokens c with
    | (none, tokens1) =>
      (.err 400 "invalid_grant" "Invalid authorization code",
        { st with tokens := tokens1 })
    | (some m, tokens1) =>
      if m.client_id ≠ cid then
        (.err 400 "invalid_grant" "Authorization code was issued to another client",
          { st with tokens := tokens1 })
      else
        match grantPkce sha256 m code_verifier with
        | some e => (e, { st with tokens := tokens1 })
        | none => grantIssue now base_url jti fresh_refresh c cid m tokens1 st

/-! ### Dynamic client registration (`register_client`) -/

/-- The registration request body, recording presence of the two fields
the source requires (`redirect_uris`, `client_name`). -/
structure ClientMetadata where
  redirect_uris : Option (List String)
  client_name : Option String
deriving DecidableEq

/-- The client-information dict assembled on successful registration
(oauth_cognito.py lines 183-189). -/
structure ClientInfo where
  client_id : String
  client_secret : String
  client_id_issued_at : Int
  client_secret_expires_at : Int
  redirect_uris : List String
  client_name : String
deriving DecidableEq

/-- Outcome of `register_client`. -/
inductive RegisterResult where
  | err (status : Nat) (error : String) (descr : String)
  | ok (info : ClientInfo)
deriving DecidableEq

/-- Whether a registration outcome is the success response. -/
def RegisterResult.isOk : RegisterResult → Bool
  | .err _ _ _ => false
  | .ok _ => true

/-- The redirect-URI test of `register_client` (oauth_cognito.py lines
164-169): literal string-prefix checks. -/
def redirectUriAllowed (uri : String) : Bool :=
  pyStartsWith uri "https://" || pyStartsWith uri "http://localhost" ||
    pyStartsWith uri "http://127.0.0.1"

/-- A stored client entry of the in-memory store (`store_client` wraps
the data with `created_at` only; clients never expire). -/
structure ClientEntry where
  data : ClientInfo
  created_at : Int
deriving DecidableEq

/-- `register_client` (oauth_cognito.py lines 145-200): validate required
fields in order, then each redirect URI, then store and echo the client
info.  `client_id` and `client_secret` stand for the two fresh `uuid4`
values. -/
def register_client (now : Int) (client_id client_secret : String)
    (md : ClientMetadata) (clients : List (String × ClientEntry)) :
    RegisterResult × List (String × ClientEntry) :=
  match md.redirect_uris with
  | none =>
    (.err 400 "invalid_client_metadata" "Missing required field: redirect_uris", clients)
  | some uris =>
    match md.client_name with
    | none =>
      (.err 400 "invalid_client_metadata" "Missing required field: client_name", clients)
    | some name =>
      match uris.find? (fun u => !redirectUriAllowed u) with
      | some _ =>
        (.err 400 "invalid_redirect_uri" "Redirect URIs must use HTTPS or localhost", clients)
      | none =>
        let info : ClientInfo :=
          { client_id := client_id
            client_secret := client_secret
            client_id_issued_at := now
            client_secret_expires_at := 0
            redirect_uris := uris
            client_name := name }
        (.ok info, assocInsert clients client_id ⟨info, now⟩)

/-- Host component of a URI, per the spec's reading of a redirect URI:
the characters after `scheme://` up to the first `/`, `:`, `?` or `#`.
Used only to state what a loopback host is; the source never parses
hosts. -/
def specUriHost (uri : String) : String :=
  let rest :=
    if pyStartsWith uri "https://" then (uri.data.drop 8)
    else if pyStartsWith uri "http://" then (uri.data.drop 7)
    else uri.data
  String.mk (rest.takeWhile fun c =>
    !(c == '/') && !(c == ':') && !(c == '?') && !(c == '#'))

/-- The spec's notion of an acceptable redirect URI: HTTPS, or plain
HTTP whose host is the loopback `localhost` or `127.0.0.1`. -/
def specRedirectUriAcceptable (uri : String) : Bool :=
  pyStartsWith uri "https://" ||
    (pyStartsWith uri "http://" &&
      (specUriHost uri == "localhost" || specUriHost uri == "127.0.0.1"))

/-! ### Token validation (`validate_token`, `validate_cognito_token`)

JWT parsing and signature verification are `pyjwt` library calls; they
are passed in as functions returning `none` where the library would
raise.  The key-set fetched from the provider's JWKS endpoint is passed
in as a list of keys. -/

/-- The unverified JWT header as read by `jwt.get_unverified_header`. -/
structure JwtHeader where
  kid : Option String
deriving DecidableEq

/-- The claims of an upstream (Cognito) access token that
`validate_cognito_token` inspects after signature verification. -/
structure CognitoClaims where
  token_use : Option String
  client_id : Option String
deriving DecidableEq

/-- One key of the provider's JWKS. -/
structure Jwk where
  kid : String
deriving DecidableEq

/-- The claims part of a validation outcome: Python returns `{}` on every
failure, the broker claims dict for a broker token, and the upstream
claims dict for an upstream token. -/
inductive ValidationClaims where
  | empty
  | mcp (c : AccessTokenClaims)
  | cognito (c : CognitoClaims)
deriving DecidableEq

/-- `validate_cognito_token` (oauth_cognito.py lines 786-841): fetch the
JWKS, find the key matching the token's `kid` (no match or missing `kid`
fails), verify the RS256 signature with expiry and issuer enforcement
(`rs256_decode key tok = none` where the library would raise), then
require `token_use == 'access'` and the `client_id` claim to equal the
configured upstream client id.  Every failure returns `(False, {})`. -/
def validate_cognito_token (jwks : List Jwk)
    (get_unverified_header : String → Option JwtHeader)
    (rs256_decode : Jwk → String → Option CognitoClaims)
    (env_client_id : String) (token : String) : Bool × ValidationClaims :=
  match get_unverified_header token with
  | none => (false, .empty)
  | some h =>
    match h.kid with
    | none => (false, .empty)
    | some kid =>
      match jwks.find? (fun jwk => jwk.kid == kid) with
      | none => (false, .empty)
      | some key =>
        match rs256_decode key token with
        | none => (false, .empty)
        | some claims =>
          if claims.token_use ≠ some "access" then (false, .empty)
          else if claims.client_id ≠ some env_client_id then (false, .empty)
          else (true, .cognito claims)

/-- The broker-token test of `validate_token` (line 857):
`headers.get('kid') and headers.get('kid').startswith('mcp-')`, including
Python's falsiness of an empty string. -/
def kidIsMcp (h : JwtHeader) : Bool :=
  match h.kid with
  | some k => !(k == "") && pyStartsWith k "mcp-"
  | none => false

/-- `validate_token` (oauth_cognito.py lines 844-894): read the
unverified header; a broker `kid` routes to HS256 verification with fixed
audience and enforced expiry (`hs256_decode tok = none` where the library
would raise), then when the claims embed a `cognito_token` it must also
validate as an upstream token; any other token is validated directly as
an upstream token.  Every failure returns `(False, {})`. -/
def validate_token (get_unverified_header : String → Option JwtHeader)
    (hs256_decode : String → Option AccessTokenClaims)
    (jwks : List Jwk) (rs256_decode : Jwk → String → Option CognitoClaims)
    (env_client_id : String) (token : String) : Bool × ValidationClaims :=
  match get_unverified_header token with
  | none => (false, .empty)
  | some h =>
    if kidIsMcp h then
      match hs256_decode token with
      | none => (false, .empty)
      | some claims =>
        match claims.cognito_token with
        | some ct =>
          if (validate_cognito_token jwks get_unverified_header rs256_decode
                env_client_id ct).1 then
            (true, .mcp claims)
          else (false, .empty)
        | none => (true, .mcp claims)
    else
      validate_cognito_token jwks get_unverified_header rs256_decode
        env_client_id token

/-! ### The DynamoDB-backed store

`boto3` converses with the remote table; the embedded model keeps the
table as an association list keyed by `(PK, SK)`.  The only numeric
conversion the repository performs is `_convert_floats` on write and
`convert_decimals` on read.  Python `float` and `Decimal` values are
abstracted as two type parameters together with the library conversions
`Decimal(str(f))` and `float(d)` between them. -/

/-- Abstraction of Python's `float` and `decimal.Decimal` leaf types and
the library conversions the store applies to them. -/
structure FloatModel where
  F : Type
  D : Type
  floatToDec : F → D
  decToFloat : D → F
  floatIsZero : F → Bool
  decIsZero : D → Bool

mutual

/-- A Python value as stored by the token stores: JSON-like data plus
`float` and `Decimal` leaves. -/
inductive Value (M : FloatModel) where
  | vnull
  | vbool (b : Bool)
  | vint (n : Int)
  | vfloat (f : M.F)
  | vdec (d : M.D)
  | vstr (s : String)
  | vlist (l : VList M)
  | vdict (l : VDict M)

/-- A list of stored values. -/
inductive VList (M : FloatModel) where
  | nil
  | cons (v : Value M) (t : VList M)

/-- A string-keyed dict of stored values. -/
inductive VDict (M : FloatModel) where
  | nil
  | cons (k : String) (v : Value M) (t : VDict M)

end

mutual

/-- `DynamoDBTokenStore._convert_floats`: recursively replace every
`float` leaf by `Decimal(str(f))`; dicts and lists are mapped, all other
leaves pass through. -/
def DynamoDBTokenStore.convert_floats {M : FloatModel} : Value M → Value M
  | .vfloat f => .vdec (M.floatToDec f)
  | .vlist l => .vlist (DynamoDBTokenStore.convert_floats_list l)
  | .vdict l => .vdict (DynamoDBTokenStore.convert_floats_dict l)
  | v => v

/-- `_convert_floats` on a list value. -/
def DynamoDBTokenStore.convert_floats_list {M : FloatModel} : VList M → VList M
  | .nil => .nil
  | .cons v t =>
    .cons (DynamoDBTokenStore.convert_floats v) (DynamoDBTokenStore.convert_floats_list t)

/-- `_convert_floats` on a dict value. -/
def DynamoDBTokenStore.convert_floats_dict {M : FloatModel} : VDict M → VDict M
  | .nil => .nil
  | .cons k v t =>
    .cons k (DynamoDBTokenStore.convert_floats v) (DynamoDBTokenStore.convert_floats_dict t)

end

mutual

/-- `DynamoDBTokenStore.convert_decimals`: recursively replace every
`Decimal` leaf by `float(d)`; dicts and lists are mapped, all other
leaves pass through. -/
def DynamoDBTokenStore.convert_decimals {M : FloatModel} : Value M → Value M
  | .vdec d => .vfloat (M.decToFloat d)
  | .vlist l => .vlist (DynamoDBTokenStore.convert_decimals_list l)
  | .vdict l => .vdict (DynamoDBTokenStore.convert_decimals_dict l)
  | v => v

/-- `convert_decimals` on a list value. -/
def DynamoDBTokenStore.convert_decimals_list {M : FloatModel} : VList M → VList M
  | .nil => .nil
  | .cons v t =>
    .cons (DynamoDBTokenStore.convert_decimals v) (DynamoDBTokenStore.convert_decimals_list t)

/-- `convert_decimals` on a dict value. -/
def DynamoDBTokenStore.convert_decimals_dict {M : FloatModel} : VDict M → VDict M
  | .nil => .nil
  | .cons k v t =>
    .cons k (DynamoDBTokenStore.convert_decimals v) (DynamoDBTokenStore.convert_decimals_dict t)

end

mutual

/-- Whether a value contains no `Decimal` leaf.  Every structure the
application stores is built from JSON bodies, strings, ints and
`time.time()` floats, so it satisfies this. -/
def valueDecFree {M : FloatModel} : Value M → Bool
  | .vdec _ => false
  | .vlist l => vlistDecFree l
  | .vdict l => vdictDecFree l
  | _ => true

/-- `valueDecFree` on a list value. -/
def vlistDecFree {M : FloatModel} : VList M → Bool
  | .nil => true
  | .cons v t => valueDecFree v && vlistDecFree t

/-- `valueDecFree` on a dict value. -/
def vdictDecFree {M : FloatModel} : VDict M → Bool
  | .nil => true
  | .cons _ v t => valueDecFree v && vdictDecFree t

end

/-- Python truthiness of a stored value, as used by the store's
`... if token_data else None` guards. -/
def valueTruthy {M : FloatModel} : Value M → Bool
  | .vnull => false
  | .vbool b => b
  | .vint n => !(n == 0)
  | .vfloat f => !(M.floatIsZero f)
  | .vdec d => !(M.decIsZero d)
  | .vstr s => !(s == "")
  | .vlist .nil => false
  | .vlist (.cons _ _) => true
  | .vdict .nil => false
  | .vdict (.cons _ _ _) => true

/-- An item of the DynamoDB table: the attributes written by the store's
`put` helpers.  Client items carry no `expiration` attribute. -/
structure DynItem (M : FloatModel) where
  data : Value M
  created_at : Int
  expiration : Option Int

/-- The single DynamoDB table, keyed by `(PK, SK)`. -/
abbrev DynTable (M : FloatModel) : Type := List ((String × String) × DynItem M)

/-- Lookup by composite key, modelling `table.get_item`. -/
def dynFind {M : FloatModel} : DynTable M → String × String → Option (DynItem M)
  | [], _ => none
  | (k', it) :: t, k => if k' == k then some it else dynFind t k

/-- Unconditional overwrite by composite key, modelling `table.put_item`. -/
def dynPut {M : FloatModel} (table : DynTable M) (k : String × String)
    (it : DynItem M) : DynTable M :=
  (k, it) :: table.filter (fun p => !(p.1 == k))

/-- Physical deletion by composite key: `table.delete_item`, and also the
action DynamoDB's TTL pruning eventually performs on an expired item. -/
def dynDelete {M : FloatModel} (table : DynTable M) (k : String × String) :
    DynTable M :=
  table.filter (fun p => !(p.1 == k))

/-- The shared read logic of the DynamoDB store's `get_*` methods: fetch
the item, take its `data` attribute and, when that is truthy, return it
with Decimals converted back to floats.  No expiry check is performed. -/
def dynGetData {M : FloatModel} (table : DynTable M) (k : String × String) :
    Option (Value M) :=
  match dynFind table k with
  | none => none
  | some it =>
    if valueTruthy it.data then some (DynamoDBTokenStore.convert_decimals it.data)
    else none

/-- `DynamoDBTokenStore.store_session`: `PK = SESSION#id`, 24-hour
`expiration` attribute, floats converted on write. -/
def DynamoDBTokenStore.store_session {M : FloatModel} (now : Int) (table : DynTable M)
    (session_id : String) (session_data : Value M) : DynTable M :=
  dynPut table ("SESSION#" ++ session_id, "SESSION")
    ⟨DynamoDBTokenStore.convert_floats session_data, now, some (now + 24 * 60 * 60)⟩

/-- `DynamoDBTokenStore.get_session`: plain keyed read, no expiry check. -/
def DynamoDBTokenStore.get_session {M : FloatModel} (table : DynTable M)
    (session_id : String) : Option (Value M) :=
  dynGetData table ("SESSION#" ++ session_id, "SESSION")

/-- `DynamoDBTokenStore.store_token_mapping`: `PK = TOKEN#code`,
10-minute `expiration` attribute, floats converted on write. -/
def DynamoDBTokenStore.store_token_mapping {M : FloatModel} (now : Int)
    (table : DynTable M) (auth_code : String) (token_data : Value M) : DynTable M :=
  dynPut table ("TOKEN#" ++ auth_code, "TOKEN")
    ⟨DynamoDBTokenStore.convert_floats token_data, now, some (now + 10 * 60)⟩

/-- `DynamoDBTokenStore.get_token_mapping`: plain keyed read, no expiry
check. -/
def DynamoDBTokenStore.get_token_mapping {M : FloatModel} (table : DynTable M)
    (auth_code : String) : Option (Value M) :=
  dynGetData table ("TOKEN#" ++ auth_code, "TOKEN")

/-- `DynamoDBTokenStore.delete_token_mapping`. -/
def DynamoDBTokenStore.delete_token_mapping {M : FloatModel} (table : DynTable M)
    (auth_code : String) : DynTable M :=
  dynDelete table ("TOKEN#" ++ auth_code, "TOKEN")

/-- `DynamoDBTokenStore.store_refresh_token`: `PK = REFRESH#token`,
30-day `expiration` attribute, floats converted on write. -/
def DynamoDBTokenStore.store_refresh_token {M : FloatModel} (now : Int)
    (table : DynTable M) (refresh_token : String) (token_data : Value M) : DynTable M :=
  dynPut table ("REFRESH#" ++ refresh_token, "REFRESH")
    ⟨DynamoDBTokenStore.convert_floats token_data, now, some (now + 30 * 24 * 60 * 60)⟩

/-- `DynamoDBTokenStore.get_refresh_token`: plain keyed read, no expiry
check. -/
def DynamoDBTokenStore.get_refresh_token {M : FloatModel} (table : DynTable M)
    (refresh_token : String) : Option (Value M) :=
  dynGetData table ("REFRESH#" ++ refresh_token, "REFRESH")

/-! ### The store factory -/

/-- Outcome of attempting `DynamoDBTokenStore()` construction: the
constructor either succeeds or raises (missing table variable, `boto3`
failure, ...). -/
inductive DynamoInitOutcome where
  | ok
  | raises (msg : String)
deriving DecidableEq

/-- Which concrete store the factory hands back. -/
inductive TokenStoreChoice where
  | dynamoDB
  | localStore
deriving DecidableEq

/-- `get_token_store` (token_store_factory.py lines 14-37): when
`TOKEN_TABLE_NAME` is set (present and non-empty), try the DynamoDB
store and fall back to the in-memory store when construction raises;
otherwise use the in-memory store directly. -/
def get_token_store (table_name : Option String)
    (dynamo_ctor : DynamoInitOutcome) : TokenStoreChoice :=
  match table_name with
  | some t =>
    if t ≠ "" then
      match dynamo_ctor with
      | .ok => .dynamoDB
      | .raises _ => .localStore
    else .localStore
  | none => .localStore

/-! ### Concrete sample data for evaluating the definitions -/

/-- A stand-in digest function used to evaluate the embedded PKCE code on
concrete inputs (the real SHA-256 is external library code). -/
def shaZero : List Nat → List Nat := fun _ => List.replicate 32 0

/-- The S256 challenge `shaZero` derives from any verifier: base64url of
32 zero bytes with padding stripped, i.e. 43 `A` characters. -/
def challengeZero : String := String.mk (List.replicate 43 'A')

/-- A concrete code mapping for client `alice` with a recorded S256
challenge. -/
def sampleMappingAlice : TokenMapping :=
  { cognito_access_token := "upstream-at"
    cognito_refresh_token := some (some "upstream-rt")
    cognito_id_token := some none
    client_id := "alice"
    scope := "openid"
    code_challenge := some (some challengeZero)
    code_challenge_method := "S256"
    created_at := 0
    expires_in := some 3600 }

/-- A token-endpoint state holding `sampleMappingAlice` under code
`code1`, stored at time 0. -/
def sampleStateAlice : TokenState :=
  { tokens := LocalTokenStore.store_token_mapping 0 [] "code1" sampleMappingAlice
    refresh_tokens := [] }

/-- A session created by an authorize request that omitted
`code_challenge` but passed `code_challenge_method=plain`. -/
def samplePlainSession : SessionData :=
  authorize_session_data "cid" "https://client.example/cb" none none (some "plain") none 0

/-- The code mapping `callback` builds from `samplePlainSession`. -/
def samplePlainMapping : TokenMapping :=
  callback_token_data samplePlainSession "upstream-at" none none none 0

/-- A token-endpoint state holding `samplePlainMapping` under `code1`. -/
def samplePlainState : TokenState :=
  { tokens := LocalTokenStore.store_token_mapping 0 [] "code1" samplePlainMapping
    refresh_tokens := [] }

/-- A session created by an authorize request that omitted
`code_challenge` and left the method at its `S256` default. -/
def sampleNoPkceSession : SessionData :=
  authorize_session_data "cid" "https://client.example/cb" none none none none 0

/-- The code mapping `callback` builds from `sampleNoPkceSession`. -/
def sampleNoPkceMapping : TokenMapping :=
  callback_token_data sampleNoPkceSession "upstream-at" none none none 0

/-- A token-endpoint state holding `sampleNoPkceMapping` under `code1`. -/
def sampleNoPkceState : TokenState :=
  { tokens := LocalTokenStore.store_token_mapping 0 [] "code1" sampleNoPkceMapping
    refresh_tokens := [] }

/-- The trivial instantiation of the abstract float/Decimal leaf types. -/
def trivialFloatModel : FloatModel :=
  { F := Unit
    D := Unit
    floatToDec := fun _ => ()
    decToFloat := fun _ => ()
    floatIsZero := fun _ => false
    decIsZero := fun _ => false }

/-- A concrete stored payload (a one-field dict). -/
def sampleDynData : Value trivialFloatModel :=
  .vdict (.cons "client_id" (.vstr "alice") .nil)

/-- A DynamoDB table holding `sampleDynData` as the code mapping for
`code1`, stored at time 0 (so with `expiration` attribute 600). -/
def sampleDynTable : DynTable trivialFloatModel :=
  DynamoDBTokenStore.store_token_mapping 0 [] "code1" sampleDynData

/-- Concrete header reader for evaluating `validate_token`: the token
string `broker` parses to a broker `kid`, everything else to an upstream
`kid`. -/
def ghW : String → Option JwtHeader :=
  fun s => if s == "broker" then some ⟨some "mcp-1"⟩ else some ⟨some "up-key"⟩

/-- Concrete HS256 verifier: every token decodes to broker claims bound
to the upstream token `uptok`. -/
def hsW : String → Option AccessTokenClaims :=
  fun _ =>
    some
      { iss := "https://mcp.example"
        sub := "alice"
        aud := "mcp-server"
        exp := 100
        iat := 0
        jti := "j1"
        scope := "openid"
        cognito_token := some "uptok"
        kid := "mcp-1" }

/-- Concrete RS256 verifier: every token decodes to upstream claims for
client `envcid` with `token_use` `access`. -/
def rsW : Jwk → String → Option CognitoClaims :=
  fun _ _ => some ⟨some "access", some "envcid"⟩

/-- Concrete JWKS holding the single key `up-key`. -/
def jwksW : List Jwk := [⟨"up-key"⟩]

/-- The access-token claims minted by redeeming `sampleStateAlice`'s code
at time 10 with base URL `https://mcp.example` and jti `jti1`. -/
def sampleClaims : AccessTokenClaims :=
  { iss := "https://mcp.example"
    sub := "alice"
    aud := "mcp-server"
    exp := 3610
    iat := 10
    jti := "jti1"
    scope := "openid"
    cognito_token := some "upstream-at"
    kid := "mcp-1" }

/-- The refresh-token mapping stored during that redemption. -/
def sampleRefreshData : RefreshTokenData :=
  { client_id := "alice"
    cognito_refresh_token := some "upstream-rt"
    scope := "openid"
    created_at := 10 }

/-- The token-endpoint state after that redemption: the code mapping is
deleted and the refresh mapping stored under `rt1`. -/
def sampleStateAfter : TokenState :=
  { tokens := []
    refresh_tokens := [("rt1", ⟨sampleRefreshData, 10, 2592010⟩)] }

/-! ## Shared lemmas -/

/-- Looking a key up after removing it finds nothing. -/
theorem assocFind_assocRemove {α : Type} (l : List (String × α)) (k : String) :
    assocFind (assocRemove l k) k = none := by
  induction l with
  | nil => rfl
  | cons p t ih =>
    obtain ⟨k', v⟩ := p
    by_cases h : k' == k
    · simp only [assocRemove, if_pos h, ih]
    · simp only [assocRemove, if_neg h, assocFind, h, ih, Bool.false_eq_true,
        if_false]

/-- Looking a key up right after inserting it finds the inserted value. -/
theorem assocFind_assocInsert {α : Type} (l : List (String × α)) (k : String)
    (v : α) : assocFind (assocInsert l k v) k = some v := by
  simp [assocInsert, assocFind]

/-! ## C9 — the store factory fails open -/

/-- C9: the factory never propagates a backend-construction failure.
Whenever the DynamoDB constructor raises, or `TOKEN_TABLE_NAME` is unset
(or empty), `get_token_store` answers the in-memory store; with the
variable set and a successful constructor it answers the DynamoDB store;
in every case it returns one of the two usable stores. -/
theorem get_token_store_fail_open (table_name : Option String)
    (ctor : DynamoInitOutcome) :
    (∀ msg, get_token_store table_name (.raises msg) = .localStore) ∧
    get_token_store none ctor = .localStore ∧
    (∀ t, t ≠ "" → get_token_store (some t) .ok = .dynamoDB) ∧
    (get_token_store table_name ctor = .dynamoDB ∨
      get_token_store table_name ctor = .localStore) := by
  refine ⟨?_, rfl, ?_, ?_⟩
  · intro msg
    cases table_name with
    | none => rfl
    | some t =>
      by_cases ht : t = "" <;> simp [get_token_store, ht]
  · intro t ht
    simp [get_token_store, ht]
  · cases table_name with
    | none => exact .inr rfl
    | some t =>
      by_cases ht : t = ""
      · exact .inr (by simp [get_token_store, ht])
      · cases ctor with
        | ok => exact .inl (by simp [get_token_store, ht])
        | raises msg => exact .inr (by simp [get_token_store, ht])

/-- C9 witness: concrete evaluation — a set table name with a raising
constructor falls back to the in-memory store. -/
theorem get_token_store_fail_open_witness :
    get_token_store (some "mcp-tokens") (.raises "boto3 unavailable") =
      .localStore :=
  (get_token_store_fail_open (some "mcp-tokens")
    (.raises "boto3 unavailable")).1 "boto3 unavailable"

/-! ## Token-validation lemmas -/

/-- `validate_cognito_token` returns either the uniform failure value or
a success carrying upstream claims. -/
theorem validate_cognito_token_shape (jwks : List Jwk)
    (gh : String → Option JwtHeader) (rs : Jwk → String → Option CognitoClaims)
    (cid t : String) :
    validate_cognito_token jwks gh rs cid t = (false, .empty) ∨
      ∃ c, validate_cognito_token jwks gh rs cid t =
        (true, ValidationClaims.cognito c) := by
  unfold validate_cognito_token
  split
  · exact .inl rfl
  · split
    · exact .inl rfl
    · split
      · exact .inl rfl
      · split
        · exact .inl rfl
        · split
          · exact .inl rfl
          · split
            · exact .inl rfl
            · exact .inr ⟨_, rfl⟩

/-- Success characterization of `validate_cognito_token`: the upstream
token is accepted exactly when its header parses with a key id present
in the JWKS, the RS256 verification (signature, expiry, issuer)
succeeds, `token_use` is `access` and the `client_id` claim equals the
configured upstream client id. -/
theorem validate_cognito_token_ok_iff (jwks : List Jwk)
    (gh : String → Option JwtHeader) (rs : Jwk → String → Option CognitoClaims)
    (cid t : String) :
    (validate_cognito_token jwks gh rs cid t).1 = true ↔
      ∃ h kid key claims, gh t = some h ∧ h.kid = some kid ∧
        jwks.find? (fun jwk => jwk.kid == kid) = some key ∧
        rs key t = some claims ∧ claims.token_use = some "access" ∧
        claims.client_id = some cid := by
  constructor
  · intro hv
    unfold validate_cognito_token at hv
    split at hv
    · simp at hv
    · split at hv
      · simp at hv
      · split at hv
        · simp at hv
        · split at hv
          · simp at hv
          · split at hv
            · simp at hv
            · split at hv
              · simp at hv
              · rename_i x1 h hgh x2 kid hkid x3 key hfind x4 claims hrs htu hcl
                exact ⟨h, kid, key, claims, hgh, hkid, hfind, hrs,
                  not_not.mp htu, not_not.mp hcl⟩
  · rintro ⟨h, kid, key, claims, hgh, hkid, hfind, hrs, htu, hcl⟩
    simp [validate_cognito_token, hgh, hkid, hfind, hrs, htu, hcl]

/-- `validate_token` returns either the uniform failure value or a
success carrying broker or upstream claims. -/
theorem validate_token_shape (gh : String → Option JwtHeader)
    (hs : String → Option AccessTokenClaims) (jwks : List Jwk)
    (rs : Jwk → String → Option CognitoClaims) (cid t : String) :
    validate_token gh hs jwks rs cid t = (false, .empty) ∨
      (∃ c, validate_token gh hs jwks rs cid t = (true, ValidationClaims.mcp c)) ∨
      (∃ c, validate_token gh hs jwks rs cid t =
        (true, ValidationClaims.cognito c)) := by
  unfold validate_token
  split
  · exact .inl rfl
  · split
    · split
      · exact .inl rfl
      · split
        · split
          · exact .inr (.inl ⟨_, rfl⟩)
          · exact .inl rfl
        · exact .inr (.inl ⟨_, rfl⟩)
    · rcases validate_cognito_token_shape jwks gh rs cid t with hsh | ⟨c, hsh⟩
      · exact .inl hsh
      · exact .inr (.inr ⟨c, hsh⟩)

/-! ## C7 — validation failures are uniform -/

/-- C7: every failure path of the token validator — parse error, unknown
key identifier, signature failure, expired token, issuer mismatch,
`token_use` mismatch, or `client_id` mismatch — produces the single
result value `(False, {})`: an invalid verdict with empty claims and no
detail identifying which check failed. -/
theorem validate_token_failures_uniform (gh : String → Option JwtHeader)
    (hs : String → Option AccessTokenClaims) (jwks : List Jwk)
    (rs : Jwk → String → Option CognitoClaims) (cid t : String)
    (hfail : (validate_token gh hs jwks rs cid t).1 = false) :
    validate_token gh hs jwks rs cid t = (false, ValidationClaims.empty) := by
  rcases validate_token_shape gh hs jwks rs cid t with h | ⟨c, h⟩ | ⟨c, h⟩
  · exact h
  · rw [h] at hfail
    simp at hfail
  · rw [h] at hfail
    simp at hfail

/-- C7 witness: a token whose header does not parse evaluates to exactly
`(false, empty)`. -/
theorem validate_token_failures_uniform_witness :
    validate_token (fun _ => none) (fun _ => none) [] (fun _ _ => none)
      "envcid" "garbage" = (false, ValidationClaims.empty) :=
  validate_token_failures_uniform (fun _ => none) (fun _ => none) []
    (fun _ _ => none) "envcid" "garbage" rfl

/-! ## C4 — a bound broker token requires both validations -/

/-- C4: for a broker-issued token (header `kid` starting `mcp-`) whose
HS256-verified claims embed an upstream token reference, the overall
validation succeeds exactly when the embedded upstream token validates
against the provider's JWKS; an HS256 failure (bad signature, expiry or
audience) yields the uniform invalid result; and upstream validation
itself succeeds exactly when the JWKS key matches, RS256 verification
(signature, expiry, issuer) passes, `token_use` is `access` and the
`client_id` claim equals the configured upstream client id. -/
theorem validate_token_bound_requires_both (gh : String → Option JwtHeader)
    (hs : String → Option AccessTokenClaims) (jwks : List Jwk)
    (rs : Jwk → String → Option CognitoClaims) (cid t : String)
    (h : JwtHeader) (hgh : gh t = some h) (hk : kidIsMcp h = true) :
    (hs t = none → validate_token gh hs jwks rs cid t =
      (false, ValidationClaims.empty)) ∧
    (∀ claims ct, hs t = some claims → claims.cognito_token = some ct →
      ((validate_token gh hs jwks rs cid t).1 = true ↔
        (validate_cognito_token jwks gh rs cid ct).1 = true)) ∧
    (∀ ct, (validate_cognito_token jwks gh rs cid ct).1 = true ↔
      ∃ h2 kid key claims, gh ct = some h2 ∧ h2.kid = some kid ∧
        jwks.find? (fun jwk => jwk.kid == kid) = some key ∧
        rs key ct = some claims ∧ claims.token_use = some "access" ∧
        claims.client_id = some cid) := by
  refine ⟨?_, ?_, fun ct => validate_cognito_token_ok_iff jwks gh rs cid ct⟩
  · intro hhs
    simp [validate_token, hgh, hk, hhs]
  · intro claims ct hhs hct
    by_cases hcv : (validate_cognito_token jwks gh rs cid ct).1 = true
    · simp [validate_token, hgh, hk, hhs, hct, hcv]
    · simp [validate_token, hgh, hk, hhs, hct, hcv]

/-- C4 witness: concrete broker token `broker` bound to upstream token
`uptok`; the equivalence is instantiated on them. -/
theorem validate_token_bound_requires_both_witness :
    (validate_token ghW hsW jwksW rsW "envcid" "broker").1 = true ↔
      (validate_cognito_token jwksW ghW rsW "envcid" "uptok").1 = true :=
  (validate_token_bound_requires_both ghW hsW jwksW rsW "envcid" "broker"
      ⟨some "mcp-1"⟩ (by decide) (by decide)).2.1
    { iss := "https://mcp.example"
      sub := "alice"
      aud := "mcp-server"
      exp := 100
      iat := 0
      jti := "j1"
      scope := "openid"
      cognito_token := some "uptok"
      kid := "mcp-1" }
    "uptok" rfl rfl

/-! ## C5 — client registration redirect-URI validation -/

/-- C5 counterexample: the source checks redirect URIs by string prefix,
so `http://localhost.evil.com/cb` — plain HTTP with the non-loopback
host `localhost.evil.com` — passes validation and registration succeeds,
refuting the claim that any plain-HTTP non-loopback redirect URI is
rejected with `invalid_redirect_uri`. -/
theorem register_client_prefix_counterexample :
    (register_client 0 "cid-1" "sec-1"
        ⟨some ["http://localhost.evil.com/cb"], some "demo"⟩ []).1 =
      RegisterResult.ok
        ⟨"cid-1", "sec-1", 0, 0, ["http://localhost.evil.com/cb"], "demo"⟩ ∧
    pyStartsWith "http://localhost.evil.com/cb" "http://" = true ∧
    specUriHost "http://localhost.evil.com/cb" = "localhost.evil.com" ∧
    specRedirectUriAcceptable "http://localhost.evil.com/cb" = false := by
  refine ⟨?_, by decide, by decide, by decide⟩
  decide

/-- C5 (amended): registration succeeds only if every member of
`redirect_uris` starts with `https://`, `http://localhost` or
`http://127.0.0.1` (a prefix test, not a host test — prefix-spoofed
hosts such as `localhost.evil.com` are accepted); with both required
fields present, any URI matching none of the three prefixes is rejected
with `invalid_redirect_uri`; and a request missing `redirect_uris` or
`client_name` is rejected with `invalid_client_metadata`. -/
theorem register_client_validation (now : Int) (cid sec : String)
    (md : ClientMetadata) (clients : List (String × ClientEntry)) :
    (md.redirect_uris = none →
      (register_client now cid sec md clients).1 =
        .err 400 "invalid_client_metadata" "Missing required field: redirect_uris") ∧
    (md.redirect_uris ≠ none → md.client_name = none →
      (register_client now cid sec md clients).1 =
        .err 400 "invalid_client_metadata" "Missing required field: client_name") ∧
    (∀ uris name u, md.redirect_uris = some uris → md.client_name = some name →
      u ∈ uris → redirectUriAllowed u = false →
      (register_client now cid sec md clients).1 =
        .err 400 "invalid_redirect_uri" "Redirect URIs must use HTTPS or localhost") ∧
    ((register_client now cid sec md clients).1.isOk = true ↔
      ∃ uris name, md.redirect_uris = some uris ∧ md.client_name = some name ∧
        ∀ u ∈ uris, redirectUriAllowed u = true) := by
  obtain ⟨ruris, cname⟩ := md
  refine ⟨?_, ?_, ?_, ?_⟩
  · intro h
    subst h
    rfl
  · intro h1 h2
    subst h2
    cases ruris with
    | none => exact absurd rfl h1
    | some uris => rfl
  · intro uris name u hu hn hmem hbad
    cases hu
    cases hn
    rcases hf : uris.find? (fun v => !redirectUriAllowed v) with _ | w
    · have := List.find?_eq_none.mp hf u hmem
      simp [hbad] at this
    · simp [register_client, hf]
  · cases ruris with
    | none =>
      simp [register_client, RegisterResult.isOk]
    | some uris =>
      cases cname with
      | none =>
        simp [register_client, RegisterResult.isOk]
      | some name =>
        rcases hf : uris.find? (fun v => !redirectUriAllowed v) with _ | w
        · constructor
          · intro _
            refine ⟨uris, name, rfl, rfl, fun u hu => ?_⟩
            have := List.find?_eq_none.mp hf u hu
            simpa using this
          · intro _
            simp [register_client, hf, RegisterResult.isOk]
        · constructor
          · intro hok
            exfalso
            revert hok
            simp [register_client, hf, RegisterResult.isOk]
          · rintro ⟨uris2, name2, h1, h2, hall⟩
            cases h1
            have hw := List.find?_some hf
            have hmem := List.mem_of_find?_eq_some hf
            rw [hall w hmem] at hw
            simp at hw

/-- C5 witness: a fully valid registration (HTTPS URI, both fields
present) evaluates to success. -/
theorem register_client_validation_witness :
    (register_client 0 "cid-2" "sec-2"
        ⟨some ["https://client.example/cb"], some "demo"⟩ []).1.isOk = true :=
  (register_client_validation 0 "cid-2" "sec-2"
      ⟨some ["https://client.example/cb"], some "demo"⟩ []).2.2.2.mpr
    ⟨["https://client.example/cb"], "demo", rfl, rfl, by decide⟩

/-! ## Grant-handler lemmas -/

/-- Reduction of `handle_authorization_code_grant` once the parameters
are non-blank and the store holds an unexpired mapping for the code. -/
theorem handle_found (sha : List Nat → List Nat) (now : Int) (b j f : String)
    (c cid ru : String) (cv : Option String) (st : TokenState)
    (e : Entry TokenMapping)
    (hc : c ≠ "") (hcid : cid ≠ "") (hru : ru ≠ "")
    (hfind : assocFind st.tokens c = some e)
    (hexp : ¬(e.expiration ≠ 0 ∧ e.expiration < now)) :
    handle_authorization_code_grant sha now b j f (some c) (some cid) (some ru)
        cv st =
      if e.data.client_id ≠ cid then
        (.err 400 "invalid_grant" "Authorization code was issued to another client",
          st)
      else
        match grantPkce sha e.data cv with
        | some r => (r, st)
        | none => grantIssue now b j f c cid e.data st.tokens st := by
  have hguard : (isBlank (some c) || isBlank (some cid) || isBlank (some ru))
      = false := by
    simp [isBlank, hc, hcid, hru]
  have hget : LocalTokenStore.get_token_mapping now st.tokens c =
      (some e.data, st.tokens) := by
    unfold LocalTokenStore.get_token_mapping lstoreGet
    rw [hfind]
    exact if_neg hexp
  unfold handle_authorization_code_grant
  simp only [hguard, Bool.false_eq_true, if_false, Option.getD_some]
  rw [hget]

/-- `grantPkce` never reports success: whenever it intercepts, the
intercepted response is an error. -/
theorem grantPkce_isOk_false (sha : List Nat → List Nat) (m : TokenMapping)
    (cv : Option String) (r : GrantResult) (h : grantPkce sha m cv = some r) :
    r.isOk = false := by
  unfold grantPkce at h
  split at h
  · cases h
  · split at h
    · cases h
      rfl
    · split at h
      · split at h
        · cases h
          rfl
        · cases h
      · cases h

/-- `grantIssue` always reports success. -/
theorem grantIssue_isOk (now : Int) (b j f c cid : String) (m : TokenMapping)
    (tokens1 : LocalStore TokenMapping) (st : TokenState) :
    ((grantIssue now b j f c cid m tokens1 st).1).isOk = true := by
  unfold grantIssue
  split <;> rfl

/-- The state `grantIssue` leaves behind has the redeemed code deleted
from the code-mapping map. -/
theorem grantIssue_deletes (now : Int) (b j f c cid : String) (m : TokenMapping)
    (tokens1 : LocalStore TokenMapping) (st : TokenState) :
    ((grantIssue now b j f c cid m tokens1 st).2).tokens = assocRemove tokens1 c := by
  unfold grantIssue
  split <;> rfl

/-- The PKCE stage under a recorded `S256` challenge and a non-blank
verifier: passes exactly when the derived challenge equals the stored
one. -/
theorem grantPkce_s256 (sha : List Nat → List Nat) (m : TokenMapping)
    (ch : String) (v : String) (hch : m.code_challenge = some (some ch))
    (hm : m.code_challenge_method = "S256") (hnv : v ≠ "") :
    grantPkce sha m (some v) =
      if computeS256Challenge sha v = ch then none
      else some (.err 400 "invalid_grant" "Invalid code_verifier") := by
  by_cases h : computeS256Challenge sha v = ch
  · simp [grantPkce, hch, hm, isBlank, hnv, h]
  · simp [grantPkce, hch, hm, isBlank, hnv, h, Ne.symm h]

/-- The PKCE stage with the `code_challenge` key present and a blank
verifier rejects with `invalid_request`. -/
theorem grantPkce_missing_verifier (sha : List Nat → List Nat) (m : TokenMapping)
    (sv : Option String) (cv : Option String)
    (hch : m.code_challenge = some sv) (hbl : isBlank cv = true) :
    grantPkce sha m cv =
      some (.err 400 "invalid_request" "Missing code_verifier") := by
  simp [grantPkce, hch, hbl]

/-! ## C1 — S256 PKCE validation at the token endpoint -/

/-- C1: for a stored code mapping whose `code_challenge` was recorded
with method `S256`, and a request with non-blank `code`, `client_id`
(matching the mapping) and `redirect_uri`: a missing (or empty)
`code_verifier` yields `invalid_request`; a verifier whose derived
challenge `base64url(sha256(verifier))` (padding stripped) differs from
the stored challenge yields `invalid_grant`; and redemption succeeds
exactly when a non-blank verifier reproducing the stored challenge is
presented. -/
theorem handle_pkce_s256_validation (sha : List Nat → List Nat) (now : Int)
    (b j f : String) (c cid ru : String) (cv : Option String)
    (st : TokenState) (e : Entry TokenMapping) (ch : String)
    (hc : c ≠ "") (hcid : cid ≠ "") (hru : ru ≠ "")
    (hfind : assocFind st.tokens c = some e)
    (hexp : ¬(e.expiration ≠ 0 ∧ e.expiration < now))
    (hch : e.data.code_challenge = some (some ch))
    (hm : e.data.code_challenge_method = "S256")
    (hclient : e.data.client_id = cid) :
    (isBlank cv = true →
      (handle_authorization_code_grant sha now b j f (some c) (some cid)
          (some ru) cv st).1 =
        .err 400 "invalid_request" "Missing code_verifier") ∧
    (∀ v, cv = some v → v ≠ "" → computeS256Challenge sha v ≠ ch →
      (handle_authorization_code_grant sha now b j f (some c) (some cid)
          (some ru) cv st).1 =
        .err 400 "invalid_grant" "Invalid code_verifier") ∧
    ((handle_authorization_code_grant sha now b j f (some c) (some cid)
        (some ru) cv st).1.isOk = true ↔
      ∃ v, cv = some v ∧ v ≠ "" ∧ computeS256Challenge sha v = ch) := by
  have hred := handle_found sha now b j f c cid ru cv st e hc hcid hru hfind hexp
  rw [if_neg (not_not_intro hclient)] at hred
  refine ⟨?_, ?_, ?_⟩
  · intro hbl
    rw [hred, grantPkce_missing_verifier sha e.data (some ch) cv hch hbl]
  · intro v hv hnv hne
    subst hv
    rw [hred, grantPkce_s256 sha e.data ch v hch hm hnv, if_neg hne]
  · constructor
    · intro hok
      rcases cv with _ | v
      · rw [hred, grantPkce_missing_verifier sha e.data (some ch) none hch rfl]
          at hok
        simp [GrantResult.isOk] at hok
      · by_cases hnv : v = ""
        · subst hnv
          rw [hred, grantPkce_missing_verifier sha e.data (some ch) (some "")
              hch rfl] at hok
          simp [GrantResult.isOk] at hok
        · by_cases heq : computeS256Challenge sha v = ch
          · exact ⟨v, rfl, hnv, heq⟩
          · rw [hred, grantPkce_s256 sha e.data ch v hch hm hnv, if_neg heq]
              at hok
            simp [GrantResult.isOk] at hok
    · rintro ⟨v, rfl, hnv, heq⟩
      rw [hred, grantPkce_s256 sha e.data ch v hch hm hnv, if_pos heq]
      exact grantIssue_isOk now b j f c cid e.data st.tokens st

/-- C1 witness: redeeming `code1` from `sampleStateAlice` without a
`code_verifier` evaluates to `invalid_request`. -/
theorem handle_pkce_s256_validation_witness :
    (handle_authorization_code_grant shaZero 10 "https://mcp.example" "jti1"
        "rt1" (some "code1") (some "alice") (some "https://cb") none
        sampleStateAlice).1 =
      .err 400 "invalid_request" "Missing code_verifier" :=
  (handle_pkce_s256_validation shaZero 10 "https://mcp.example" "jti1" "rt1"
      "code1" "alice" "https://cb" none sampleStateAlice
      ⟨sampleMappingAlice, 0, 600⟩ challengeZero
      (by decide) (by decide) (by decide) (by decide) (by decide)
      rfl rfl rfl).1 rfl

/-! ## C3 — client mismatch on redemption -/

/-- C3: when the stored mapping's `client_id` differs from the request's
`client_id`, the token endpoint answers 400 `invalid_grant`, issues no
token, and leaves the store unchanged. -/
theorem handle_client_mismatch (sha : List Nat → List Nat) (now : Int)
    (b j f : String) (c cid ru : String) (cv : Option String)
    (st : TokenState) (e : Entry TokenMapping)
    (hc : c ≠ "") (hcid : cid ≠ "") (hru : ru ≠ "")
    (hfind : assocFind st.tokens c = some e)
    (hexp : ¬(e.expiration ≠ 0 ∧ e.expiration < now))
    (hne : e.data.client_id ≠ cid) :
    handle_authorization_code_grant sha now b j f (some c) (some cid)
        (some ru) cv st =
      (.err 400 "invalid_grant" "Authorization code was issued to another client",
        st) ∧
    (handle_authorization_code_grant sha now b j f (some c) (some cid)
        (some ru) cv st).1.isOk = false := by
  have hred := handle_found sha now b j f c cid ru cv st e hc hcid hru hfind hexp
  rw [if_pos hne] at hred
  exact ⟨hred, by rw [hred]; rfl⟩

/-- C3 witness: redeeming `alice`'s code as client `bob` evaluates to
the `invalid_grant` error with the state untouched. -/
theorem handle_client_mismatch_witness :
    handle_authorization_code_grant shaZero 10 "https://mcp.example" "jti1"
        "rt1" (some "code1") (some "bob") (some "https://cb") none
        sampleStateAlice =
      (.err 400 "invalid_grant" "Authorization code was issued to another client",
        sampleStateAlice) :=
  (handle_client_mismatch shaZero 10 "https://mcp.example" "jti1" "rt1"
      "code1" "bob" "https://cb" none sampleStateAlice
      ⟨sampleMappingAlice, 0, 600⟩
      (by decide) (by decide) (by decide) (by decide) (by decide)
      (by decide)).1

/-! ## C10 — codes minted without PKCE -/

/-- C10 counterexample: an authorize request that omits `code_challenge`
but passes `code_challenge_method=plain` produces a session with no
challenge whose resulting broker code *is* redeemable — the PKCE branch
triggers on the present-but-`None` challenge key, demands a verifier,
but then skips verification because the recorded method is not `S256`.
This refutes the claim that every redemption of a code minted from an
authorize request omitting `code_challenge` fails. -/
theorem handle_no_pkce_plain_counterexample :
    samplePlainSession.code_challenge = none ∧
    samplePlainMapping.code_challenge = some none ∧
    (handle_authorization_code_grant shaZero 10 "https://mcp.example" "jti1"
        "rt1" (some "code1") (some "cid") (some "https://client.example/cb")
        (some "anyverifier") samplePlainState).1.isOk = true := by
  refine ⟨rfl, rfl, ?_⟩
  decide

/-- C10 (amended): every code mapping built by the callback handler
carries the `code_challenge` key (copied from the session, `None`
included), and the PKCE branch triggers on key presence; hence for a
mapping recorded with no challenge and the *default* method `S256`,
every redemption fails — `invalid_request` without a verifier,
`invalid_grant` with any verifier (the derived challenge, a string,
never equals the stored `None`) — and no token is issued.  When the
authorize request overrode the method (e.g. `plain`), verification is
skipped and the code is redeemable, which is what the counterexample
exhibits. -/
theorem handle_no_pkce_unredeemable (sha : List Nat → List Nat) (now : Int)
    (b j f : String) (c cid ru : String) (cv : Option String)
    (st : TokenState) (e : Entry TokenMapping)
    (hc : c ≠ "") (hcid : cid ≠ "") (hru : ru ≠ "")
    (hfind : assocFind st.tokens c = some e)
    (hexp : ¬(e.expiration ≠ 0 ∧ e.expiration < now))
    (hch : e.data.code_challenge = some none)
    (hm : e.data.code_challenge_method = "S256")
    (hclient : e.data.client_id = cid) :
    (∀ session at_ rt it ei n,
      (callback_token_data session at_ rt it ei n).code_challenge =
        some session.code_challenge) ∧
    (isBlank cv = true →
      (handle_authorization_code_grant sha now b j f (some c) (some cid)
          (some ru) cv st).1 =
        .err 400 "invalid_request" "Missing code_verifier") ∧
    (∀ v, cv = some v → v ≠ "" →
      (handle_authorization_code_grant sha now b j f (some c) (some cid)
          (some ru) cv st).1 =
        .err 400 "invalid_grant" "Invalid code_verifier") ∧
    (handle_authorization_code_grant sha now b j f (some c) (some cid)
        (some ru) cv st).1.isOk = false := by
  have hred := handle_found sha now b j f c cid ru cv st e hc hcid hru hfind hexp
  rw [if_neg (not_not_intro hclient)] at hred
  have hmiss : isBlank cv = true →
      (handle_authorization_code_grant sha now b j f (some c) (some cid)
          (some ru) cv st).1 =
        .err 400 "invalid_request" "Missing code_verifier" := by
    intro hbl
    rw [hred, grantPkce_missing_verifier sha e.data none cv hch hbl]
  have hbad : ∀ v, cv = some v → v ≠ "" →
      (handle_authorization_code_grant sha now b j f (some c) (some cid)
          (some ru) cv st).1 =
        .err 400 "invalid_grant" "Invalid code_verifier" := by
    intro v hv hnv
    subst hv
    have hp : grantPkce sha e.data (some v) =
        some (.err 400 "invalid_grant" "Invalid code_verifier") := by
      simp [grantPkce, hch, hm, isBlank, hnv]
    rw [hred, hp]
  refine ⟨fun _ _ _ _ _ _ => rfl, hmiss, hbad, ?_⟩
  rcases cv with _ | v
  · rw [hmiss rfl]
    rfl
  · by_cases hnv : v = ""
    · subst hnv
      rw [hmiss rfl]
      rfl
    · rw [hbad v rfl hnv]
      rfl

/-- C10 witness: redeeming the default-method no-PKCE code with a
verifier evaluates to `invalid_grant`. -/
theorem handle_no_pkce_unredeemable_witness :
    (handle_authorization_code_grant shaZero 10 "https://mcp.example" "jti1"
        "rt1" (some "code1") (some "cid") (some "https://client.example/cb")
        (some "anyverifier") sampleNoPkceState).1 =
      .err 400 "invalid_grant" "Invalid code_verifier" :=
  (handle_no_pkce_unredeemable shaZero 10 "https://mcp.example" "jti1" "rt1"
      "code1" "cid" "https://client.example/cb" (some "anyverifier")
      sampleNoPkceState ⟨sampleNoPkceMapping, 0, 600⟩
      (by decide) (by decide) (by decide) (by decide) (by decide)
      rfl rfl rfl).2.2.1 "anyverifier" rfl (by decide)

/-! ## C2 — authorization codes are single use -/

/-- C2: a redemption that reaches the token-issuing path deletes the
code mapping from the store, so the resulting state no longer resolves
the code, and a second `authorization_code` request presenting the same
code — at any later time, with any verifier — fails with 400
`invalid_grant` from the not-found lookup, leaving the state unchanged. -/
theorem handle_code_single_use (sha : List Nat → List Nat) (now : Int)
    (b j f : String) (code client_id redirect_uri cv : Option String)
    (st : TokenState) (cl : AccessTokenClaims) (tt : String) (ei : Int)
    (sc : String) (rt : Option String) (st' : TokenState)
    (h : handle_authorization_code_grant sha now b j f code client_id
          redirect_uri cv st = (.ok cl tt ei sc rt, st')) :
    assocFind st'.tokens (code.getD "") = none ∧
    ∀ sha2 now2 b2 j2 f2 cv2,
      handle_authorization_code_grant sha2 now2 b2 j2 f2 code client_id
          redirect_uri cv2 st' =
        (.err 400 "invalid_grant" "Invalid authorization code", st') := by
  by_cases hg : (isBlank code || isBlank client_id || isBlank redirect_uri) = true
  · unfold handle_authorization_code_grant at h
    rw [if_pos hg] at h
    simp at h
  · unfold handle_authorization_code_grant at h
    rw [if_neg hg] at h
    dsimp only at h
    rcases hget : LocalTokenStore.get_token_mapping now st.tokens (code.getD "")
      with ⟨mo, tokens1⟩
    rw [hget] at h
    cases mo with
    | none => simp at h
    | some m =>
      dsimp only at h
      split at h
      · simp at h
      · rcases hr : grantPkce sha m cv with _ | r
        · rw [hr] at h
          dsimp only at h
          have h2 : (grantIssue now b j f (code.getD "") (client_id.getD "") m
              tokens1 st).2 = st' := by
            rw [h]
          have hst : st'.tokens = assocRemove tokens1 (code.getD "") := by
            rw [← h2]
            exact grantIssue_deletes now b j f (code.getD "")
              (client_id.getD "") m tokens1 st
          have hnone : assocFind st'.tokens (code.getD "") = none := by
            rw [hst]
            exact assocFind_assocRemove tokens1 (code.getD "")
          refine ⟨hnone, ?_⟩
          intro sha2 now2 b2 j2 f2 cv2
          unfold handle_authorization_code_grant
          rw [if_neg hg]
          dsimp only
          have hget2 : LocalTokenStore.get_token_mapping now2 st'.tokens
              (code.getD "") = (none, st'.tokens) := by
            unfold LocalTokenStore.get_token_mapping lstoreGet
            rw [hnone]
          rw [hget2]
        · rw [hr] at h
          have hok := grantPkce_isOk_false sha m cv r hr
          have hfst : r = GrantResult.ok cl tt ei sc rt := congrArg Prod.fst h
          rw [hfst] at hok
          exact Bool.noConfusion hok

/-- C2 witness: redeeming `code1` from `sampleStateAlice` with a correct
verifier succeeds and hands back `sampleStateAfter`; the repeated
request evaluates to `invalid_grant`. -/
theorem handle_code_single_use_witness :
    handle_authorization_code_grant shaZero 20 "b2" "j2" "f2" (some "code1")
        (some "alice") (some "https://cb") (some "verif") sampleStateAfter =
      (.err 400 "invalid_grant" "Invalid authorization code",
        sampleStateAfter) :=
  (handle_code_single_use shaZero 10 "https://mcp.example" "jti1" "rt1"
      (some "code1") (some "alice") (some "https://cb")
      (some (String.mk (List.replicate 43 'A'))) sampleStateAlice
      sampleClaims "Bearer" 3600 "openid" (some "rt1") sampleStateAfter
      (by decide)).2 shaZero 20 "b2" "j2" "f2" (some "verif")

/-! ## C8 — numeric round-trips through the stores -/

mutual

/-- Reading back a Decimal-free value after the write conversion undoes
it exactly, given the library round-trip `float(Decimal(str(f))) == f`. -/
theorem convert_roundtrip {M : FloatModel}
    (hrt : ∀ fl : M.F, M.decToFloat (M.floatToDec fl) = fl) :
    ∀ v : Value M, valueDecFree v = true →
      DynamoDBTokenStore.convert_decimals (DynamoDBTokenStore.convert_floats v) = v
  | .vnull, _ => rfl
  | .vbool _, _ => rfl
  | .vint _, _ => rfl
  | .vfloat fl, _ => by
    simp only [DynamoDBTokenStore.convert_floats,
      DynamoDBTokenStore.convert_decimals, hrt fl]
  | .vdec _, hfree => by
    simp [valueDecFree] at hfree
  | .vstr _, _ => rfl
  | .vlist l, hfree => by
    simp only [DynamoDBTokenStore.convert_floats,
      DynamoDBTokenStore.convert_decimals]
    rw [convert_roundtrip_list hrt l (by simpa [valueDecFree] using hfree)]
  | .vdict l, hfree => by
    simp only [DynamoDBTokenStore.convert_floats,
      DynamoDBTokenStore.convert_decimals]
    rw [convert_roundtrip_dict hrt l (by simpa [valueDecFree] using hfree)]

/-- List case of `convert_roundtrip`. -/
theorem convert_roundtrip_list {M : FloatModel}
    (hrt : ∀ fl : M.F, M.decToFloat (M.floatToDec fl) = fl) :
    ∀ l : VList M, vlistDecFree l = true →
      DynamoDBTokenStore.convert_decimals_list
        (DynamoDBTokenStore.convert_floats_list l) = l
  | .nil, _ => rfl
  | .cons v t, hfree => by
    simp only [DynamoDBTokenStore.convert_floats_list,
      DynamoDBTokenStore.convert_decimals_list]
    have hv : valueDecFree v = true := by
      have := hfree
      simp [vlistDecFree, Bool.and_eq_true] at this
      exact this.1
    have ht : vlistDecFree t = true := by
      have := hfree
      simp [vlistDecFree, Bool.and_eq_true] at this
      exact this.2
    rw [convert_roundtrip hrt v hv, convert_roundtrip_list hrt t ht]

/-- Dict case of `convert_roundtrip`. -/
theorem convert_roundtrip_dict {M : FloatModel}
    (hrt : ∀ fl : M.F, M.decToFloat (M.floatToDec fl) = fl) :
    ∀ l : VDict M, vdictDecFree l = true →
      DynamoDBTokenStore.convert_decimals_dict
        (DynamoDBTokenStore.convert_floats_dict l) = l
  | .nil, _ => rfl
  | .cons k v t, hfree => by
    simp only [DynamoDBTokenStore.convert_floats_dict,
      DynamoDBTokenStore.convert_decimals_dict]
    have hv : valueDecFree v = true := by
      have := hfree
      simp [vdictDecFree, Bool.and_eq_true] at this
      exact this.1
    have ht : vdictDecFree t = true := by
      have := hfree
      simp [vdictDecFree, Bool.and_eq_true] at this
      exact this.2
    rw [convert_roundtrip hrt v hv, convert_roundtrip_dict hrt t ht]

end

/-- A keyed read right after a keyed write returns the written item. -/
theorem dynFind_dynPut {M : FloatModel} (table : DynTable M)
    (k : String × String) (it : DynItem M) :
    dynFind (dynPut table k it) k = some it := by
  simp [dynPut, dynFind]

/-- C8: with the library guarantee `float(Decimal(str(f))) == f`, the
write conversion (floats to Decimals) and the read conversion (Decimals
to floats) of the durable store compose to the identity on every
Decimal-free stored structure — integers pass through both conversions
untouched, floats round-trip exactly — the volatile store's conversions
are no-ops, and a dict payload stored under an authorization code reads
back equal through either backend. -/
theorem convert_numeric_roundtrip (M : FloatModel)
    (hrt : ∀ fl : M.F, M.decToFloat (M.floatToDec fl) = fl) :
    (∀ v : Value M, valueDecFree v = true →
      DynamoDBTokenStore.convert_decimals
        (DynamoDBTokenStore.convert_floats v) = v) ∧
    (∀ n : Int, DynamoDBTokenStore.convert_decimals
      (DynamoDBTokenStore.convert_floats (Value.vint (M := M) n)) =
        Value.vint n) ∧
    (∀ fl : M.F, DynamoDBTokenStore.convert_decimals
      (DynamoDBTokenStore.convert_floats (Value.vfloat (M := M) fl)) =
        Value.vfloat fl) ∧
    (∀ v : Value M, LocalTokenStore.convert_decimals
      (LocalTokenStore.convert_floats v) = v) ∧
    (∀ (k : String) (v0 : Value M) (rest : VDict M) (now : Int)
        (code : String) (table : DynTable M) (stl : LocalStore (Value M)),
      valueDecFree (Value.vdict (VDict.cons k v0 rest)) = true →
      DynamoDBTokenStore.get_token_mapping
          (DynamoDBTokenStore.store_token_mapping now table code
            (Value.vdict (VDict.cons k v0 rest))) code =
        some (Value.vdict (VDict.cons k v0 rest)) ∧
      (LocalTokenStore.get_token_mapping now
          (LocalTokenStore.store_token_mapping now stl code
            (Value.vdict (VDict.cons k v0 rest))) code).1 =
        some (Value.vdict (VDict.cons k v0 rest))) := by
  refine ⟨convert_roundtrip hrt, fun n => rfl, ?_, fun v => rfl, ?_⟩
  · intro fl
    simp only [DynamoDBTokenStore.convert_floats,
      DynamoDBTokenStore.convert_decimals, hrt fl]
  · intro k v0 rest now code table stl hfree
    constructor
    · unfold DynamoDBTokenStore.get_token_mapping
        DynamoDBTokenStore.store_token_mapping dynGetData
      rw [dynFind_dynPut]
      dsimp only
      have htr : valueTruthy (DynamoDBTokenStore.convert_floats
          (Value.vdict (M := M) (VDict.cons k v0 rest))) = true := by
        simp [DynamoDBTokenStore.convert_floats,
          DynamoDBTokenStore.convert_floats_dict, valueTruthy]
      rw [if_pos htr, convert_roundtrip hrt _ hfree]
    · unfold LocalTokenStore.get_token_mapping
        LocalTokenStore.store_token_mapping lstoreGet
      rw [assocFind_assocInsert]
      dsimp only
      rw [if_neg (fun hcon => absurd hcon.2 (by omega))]

/-- C8 witness: an integer leaf round-trips unchanged through the
durable store's write and read conversions. -/
theorem convert_numeric_roundtrip_witness :
    DynamoDBTokenStore.convert_decimals (DynamoDBTokenStore.convert_floats
      (Value.vint (M := trivialFloatModel) 5)) = Value.vint 5 :=
  (convert_numeric_roundtrip trivialFloatModel (fun _ => rfl)).2.1 5

/-! ## C6 — TTL expiry behaviour of the two backends -/

/-- A keyed read after the key's physical deletion finds nothing. -/
theorem dynFind_dynDelete {M : FloatModel} (table : DynTable M)
    (k : String × String) :
    dynFind (dynDelete table k) k = none := by
  induction table with
  | nil => rfl
  | cons p t ih =>
    obtain ⟨k', it⟩ := p
    by_cases h : (k' == k) = true
    · simpa [dynDelete, List.filter_cons, h] using ih
    · simpa [dynDelete, List.filter_cons, h, dynFind] using ih

/-- Reading an entry whose TTL has elapsed from the volatile store
answers not-found and evicts it. -/
theorem lstoreGet_after_put_expired {α : Type} (now tG ttl : Int)
    (stl : LocalStore α) (k : String) (d : α)
    (h0 : 0 < now + ttl) (hlt : now + ttl < tG) :
    (lstoreGet tG (assocInsert stl k ⟨d, now, now + ttl⟩) k).1 = none ∧
    assocFind (lstoreGet tG (assocInsert stl k ⟨d, now, now + ttl⟩) k).2 k =
      none := by
  unfold lstoreGet
  rw [assocFind_assocInsert]
  dsimp only
  rw [if_pos ⟨by omega, hlt⟩]
  exact ⟨rfl, assocFind_assocRemove _ k⟩

/-- C6 counterexample: a code mapping stored in the durable backend at
time 0 carries `expiration` 600, yet a read at time 1000 — after the TTL
has elapsed but before DynamoDB's physical pruning — still returns the
stored payload, while the volatile backend's read of the same payload at
time 1000 answers not-found.  The durable backend's read therefore does
not behave identically to not-found on an expired item. -/
theorem dynamo_expired_read_counterexample :
    (dynFind sampleDynTable ("TOKEN#" ++ "code1", "TOKEN")).map
        DynItem.expiration = some (some 600) ∧
    (600 : Int) < 1000 ∧
    DynamoDBTokenStore.get_token_mapping sampleDynTable "code1" =
      some sampleDynData ∧
    (LocalTokenStore.get_token_mapping 1000
        (LocalTokenStore.store_token_mapping 0
          ([] : LocalStore (Value trivialFloatModel)) "code1" sampleDynData)
        "code1").1 = none := by
  refine ⟨rfl, by decide, rfl, rfl⟩

/-- C6 (amended): the three TTL-bearing entities keep their spec TTLs
(24 h sessions, 10 min code mappings, 30 day refresh mappings) in both
backends, and a `get` after the TTL has elapsed behaves as not-found in
the volatile backend, which checks expiry at read time and evicts
lazily; the durable backend records the same `expiration` attribute but
performs no expiry check on read — its reads return not-found only once
the item has been physically removed (as DynamoDB's TTL pruning
eventually does), and until then an expired item is still returned, as
the counterexample exhibits. -/
theorem ttl_expiry_behavior (M : FloatModel) :
    (∀ (α : Type) (now tG : Int) (stl : LocalStore α) (k : String) (d : α),
      0 ≤ now → now + 24 * 60 * 60 < tG →
      (LocalTokenStore.get_session tG
          (LocalTokenStore.store_session now stl k d) k).1 = none ∧
      assocFind (LocalTokenStore.get_session tG
          (LocalTokenStore.store_session now stl k d) k).2 k = none) ∧
    (∀ (α : Type) (now tG : Int) (stl : LocalStore α) (k : String) (d : α),
      0 ≤ now → now + 10 * 60 < tG →
      (LocalTokenStore.get_token_mapping tG
          (LocalTokenStore.store_token_mapping now stl k d) k).1 = none ∧
      assocFind (LocalTokenStore.get_token_mapping tG
          (LocalTokenStore.store_token_mapping now stl k d) k).2 k = none) ∧
    (∀ (α : Type) (now tG : Int) (stl : LocalStore α) (k : String) (d : α),
      0 ≤ now → now + 30 * 24 * 60 * 60 < tG →
      (LocalTokenStore.get_refresh_token tG
          (LocalTokenStore.store_refresh_token now stl k d) k).1 = none ∧
      assocFind (LocalTokenStore.get_refresh_token tG
          (LocalTokenStore.store_refresh_token now stl k d) k).2 k = none) ∧
    (∀ (now : Int) (table : DynTable M) (sid : String) (d : Value M),
      (dynFind (DynamoDBTokenStore.store_session now table sid d)
          ("SESSION#" ++ sid, "SESSION")).map DynItem.expiration =
        some (some (now + 24 * 60 * 60))) ∧
    (∀ (now : Int) (table : DynTable M) (code : String) (d : Value M),
      (dynFind (DynamoDBTokenStore.store_token_mapping now table code d)
          ("TOKEN#" ++ code, "TOKEN")).map DynItem.expiration =
        some (some (now + 10 * 60))) ∧
    (∀ (now : Int) (table : DynTable M) (rt : String) (d : Value M),
      (dynFind (DynamoDBTokenStore.store_refresh_token now table rt d)
          ("REFRESH#" ++ rt, "REFRESH")).map DynItem.expiration =
        some (some (now + 30 * 24 * 60 * 60))) ∧
    (∀ (table : DynTable M) (k : String × String),
      dynGetData (dynDelete table k) k = none) := by
  refine ⟨?_, ?_, ?_, ?_, ?_, ?_, ?_⟩
  · intro α now tG stl k d h0 hlt
    exact lstoreGet_after_put_expired now tG (24 * 60 * 60) stl k d
      (by omega) hlt
  · intro α now tG stl k d h0 hlt
    exact lstoreGet_after_put_expired now tG (10 * 60) stl k d (by omega) hlt
  · intro α now tG stl k d h0 hlt
    exact lstoreGet_after_put_expired now tG (30 * 24 * 60 * 60) stl k d
      (by omega) hlt
  · intro now table sid d
    unfold DynamoDBTokenStore.store_session
    rw [dynFind_dynPut]
    rfl
  · intro now table code d
    unfold DynamoDBTokenStore.store_token_mapping
    rw [dynFind_dynPut]
    rfl
  · intro now table rt d
    unfold DynamoDBTokenStore.store_refresh_token
    rw [dynFind_dynPut]
    rfl
  · intro table k
    unfold dynGetData
    rw [dynFind_dynDelete]

/-- C6 witness: a code mapping stored in the volatile backend at time 0
is unreadable at time 601. -/
theorem ttl_expiry_behavior_witness :
    (LocalTokenStore.get_token_mapping 601
        (LocalTokenStore.store_token_mapping 0 ([] : LocalStore String) "c"
          "payload") "c").1 = none :=
  ((ttl_expiry_behavior trivialFloatModel).2.1 String 0 601 [] "c" "payload"
    (by decide) (by decide)).1
